import Mathlib

/-!
Shallow embedding of EasyDB's schema validation and construction subsystem
(files `easydb/checks.py` and `easydb/easydb.py`).

Modelling conventions:
* Python exceptions are modelled with `Except`: a check that raises is
  `.error kind`, a check that returns `None` (falls off the end) is `.ok ()`.
  Error kinds follow the spec's taxonomy (`ErrKind`); the spec states the
  taxonomy is about kinds, not their concrete representation.
* `iterable_check` is the one check that does not raise: it prints a
  diagnostic and returns `False`.  We model its boolean result; `false`
  stands for Python `False`, `true` for the `None` success return
  (which compares `!= False` in the caller).
* Python's `str.isalpha` is Unicode-aware; `py_isalpha` models its ASCII
  fragment exactly (the regular expression `^[A-Za-z0-9_]*$` used right
  after it is ASCII-only, so every accepted identifier is ASCII).
  Universal theorems whose truth could depend on a non-ASCII first
  character carry an explicit `py_isalpha` hypothesis.
* Candidate names reaching the checks are `String`s, so the
  `isinstance(..., str)` guards (spec kind `NotAString`) are discharged by
  typing and have no runtime branch in the embedding.
* Machine integers: Python's `int` is unbounded, so `pk`/`version` are `Nat`.
-/

/-- A Python value usable as a declared column type: a `str` value (a
candidate foreign-key reference), one of the three type objects
`str`/`int`/`float`, or anything else (which `column_type_check` rejects). -/
inductive PyVal where
  | strV : String → PyVal
  | tyStr : PyVal
  | tyInt : PyVal
  | tyFloat : PyVal
  | otherV : PyVal
deriving DecidableEq

/-- A column definition `(column_name, column_type)`. -/
abbrev ColDef := String × PyVal

/-- A table definition `(table_name, columns)`. -/
abbrev TableDef := String × List ColDef

/-- An entry of the per-table `self.column[i]` list built by the constructor:
the code appends the empty list `[]` as a placeholder before every column
name, so the list mixes Python lists and strings. -/
inductive PyEntry where
  | emptyList : PyEntry
  | str : String → PyEntry
deriving DecidableEq

/-- Error kinds, following the spec's taxonomy (section 7).  `IndexError`
models Python's built-in IndexError raised by out-of-range subscripting
(e.g. `table_name[0]` on the empty string); it is not in the spec's
taxonomy.  `NotIterable` is in the spec's taxonomy but the source only
diagnoses it (print + `return False`) without raising. -/
inductive ErrKind where
  | NotAString : ErrKind
  | MustStartWithLetter : ErrKind
  | InvalidCharacters : ErrKind
  | DuplicateName : ErrKind
  | SelfReferencingForeignKey : ErrKind
  | UnknownForeignKeyTarget : ErrKind
  | UnsupportedColumnType : ErrKind
  | NotIterable : ErrKind
  | IndexError : ErrKind
deriving DecidableEq

/-- Python `c.isalpha()` restricted to ASCII (see the header comment). -/
def py_isalpha (c : Char) : Bool := c.isAlpha

/-- Membership in the character class `[A-Za-z0-9_]` of the regular
expression `^[A-Za-z0-9_]*$` used by both name checks. -/
def ident_char (c : Char) : Bool := c.isAlpha || c.isDigit || c = '_'

/-- `re.match("^[A-Za-z0-9_]*$", name) != None` for both name checks.
In Python (non-MULTILINE) `$` matches at the end of the string or just
before a newline at the end of the string, so the regular expression
accepts a name made of class characters optionally followed by one
trailing newline: `"a\n"` matches, `"a\nb"` and `"a\n\n"` do not. -/
def py_regex_match (s : List Char) : Bool :=
  s.all ident_char ||
    (if s.getLast? = some '\n' then s.dropLast.all ident_char else false)

/-- The error kind of a leaf check's outcome, `none` on success. -/
def checkKind : Except ErrKind Unit → Option ErrKind
  | .error e => some e
  | .ok _ => none

/-- `checks.table_name_check(table_name, existing_names)`.
`table_name[0]` raises IndexError on the empty string; then the
first-character letter test, the character-class regular expression, and
the case-sensitive duplicate scan, in source order. -/
def table_name_check (table_name : String) (existing_names : List String) :
    Except ErrKind Unit :=
  match table_name.data[0]? with
  | none => .error .IndexError
  | some c =>
    if py_isalpha c = false then .error .MustStartWithLetter
    else if py_regex_match table_name.data = false then .error .InvalidCharacters
    else if table_name ∈ existing_names then .error .DuplicateName
    else .ok ()

/-- `checks.column_name_check(col_name, existing_names)`: identical rules to
`table_name_check`, except that `existing_names` is `self.column[i]`, which
holds both placeholder lists and strings; Python's `col_name == name` is
false between a string and a list, modelled by comparing `PyEntry`s. -/
def column_name_check (col_name : String) (existing_names : List PyEntry) :
    Except ErrKind Unit :=
  match col_name.data[0]? with
  | none => .error .IndexError
  | some c =>
    if py_isalpha c = false then .error .MustStartWithLetter
    else if py_regex_match col_name.data = false then .error .InvalidCharacters
    else if PyEntry.str col_name ∈ existing_names then .error .DuplicateName
    else .ok ()

/-- `checks.column_type_check(col_type, table_index, existing_table_names)`.
A string-valued type is a foreign-key candidate: first compared (after an
in-range subscript, else IndexError) against
`existing_table_names[table_index]` — the owning table, appended by the
caller before any column is processed — then sought among all accumulated
names.  A non-string type must be one of the markers `str`, `int`, `float`. -/
def column_type_check (col_type : PyVal) (table_index : Nat)
    (existing_table_names : List String) : Except ErrKind Unit :=
  match col_type with
  | .strV s =>
    match existing_table_names[table_index]? with
    | none => .error .IndexError
    | some own =>
      if s = own then .error .SelfReferencingForeignKey
      else if s ∉ existing_table_names then .error .UnknownForeignKeyTarget
      else .ok ()
  | .tyStr => .ok ()
  | .tyInt => .ok ()
  | .tyFloat => .ok ()
  | .otherV => .error .UnsupportedColumnType

/-- The constructor's raw argument: either a non-iterable Python value or an
iterable sequence of table definitions. -/
inductive PyInput where
  | notIterable : PyInput
  | iterable : List TableDef → PyInput
deriving DecidableEq

/-- `checks.iterable_check(obj)`: `false` models the `print` + `return False`
path for a non-iterable argument, `true` the `None` success return. -/
def iterable_check : PyInput → Bool
  | .notIterable => false
  | .iterable _ => true

/-- The `Database` object's schema-related attributes, as initialised and
populated by `Database.__init__`. -/
structure Database where
  /-- `self.schema`: `none` models the initial `()`, `some tds` the raw
  input stored once the iterable check passes. -/
  schema : Option (List TableDef)
  table_names : List String
  table_count : Nat
  table_col_count : List Nat
  column : List (List PyEntry)
  col_type : List (List PyVal)
  pk : Nat
  version : Nat
deriving DecidableEq

/-- The attribute values set at the top of `Database.__init__`. -/
def initDatabase : Database :=
  { schema := none, table_names := [], table_count := 0,
    table_col_count := [], column := [], col_type := [], pk := 1, version := 0 }

/-- One iteration of the inner loop `for columns in tables[self.table_count][1]`:
append the `[]` placeholder, validate the column name against
`self.column[tc]` (placeholder included), append the name and bump
`self.table_col_count[tc]`, validate the column type against
`self.table_names` (owning table included), append the type.  A raised
exception aborts construction, carrying the partially built state. -/
def processColumn (db : Database) (col : ColDef) :
    Except (ErrKind × Database) Database :=
  let tc := db.table_count
  let db := { db with column := db.column.set tc (db.column.getD tc [] ++ [PyEntry.emptyList]) }
  match column_name_check col.1 (db.column.getD tc []) with
  | .error e => .error (e, db)
  | .ok _ =>
    let db := { db with
      column := db.column.set tc (db.column.getD tc [] ++ [PyEntry.str col.1]),
      table_col_count := db.table_col_count.set tc (db.table_col_count.getD tc 0 + 1) }
    match column_type_check col.2 tc db.table_names with
    | .error e => .error (e, db)
    | .ok _ =>
      .ok { db with col_type := db.col_type.set tc (db.col_type.getD tc [] ++ [col.2]) }

/-- The inner loop over a table's column definitions, in order. -/
def processColumns (db : Database) : List ColDef → Except (ErrKind × Database) Database
  | [] => .ok db
  | c :: rest =>
    match processColumn db c with
    | .error e => .error e
    | .ok db1 => processColumns db1 rest

/-- One iteration of `for table in tables`: validate `table[0]` against the
accepted table names, append the name and fresh per-table slots, run the
column loop over `tables[self.table_count][1]` (the source indexes the full
input rather than using the loop variable), then `self.table_count += 1`. -/
def processTable (tables : List TableDef) (db : Database) (table : TableDef) :
    Except (ErrKind × Database) Database :=
  match table_name_check table.1 db.table_names with
  | .error e => .error (e, db)
  | .ok _ =>
    let db := { db with
      table_names := db.table_names ++ [table.1],
      column := db.column ++ [[]],
      col_type := db.col_type ++ [[]],
      table_col_count := db.table_col_count ++ [0] }
    match tables[db.table_count]? with
    | none => .error (.IndexError, db)
    | some t =>
      match processColumns db t.2 with
      | .error e => .error e
      | .ok db1 => .ok { db1 with table_count := db1.table_count + 1 }

/-- The outer loop of `Database.__init__` over the table definitions. -/
def processTables (tables : List TableDef) (db : Database) :
    List TableDef → Except (ErrKind × Database) Database
  | [] => .ok db
  | t :: rest =>
    match processTable tables db t with
    | .error e => .error e
    | .ok db1 => processTables tables db1 rest

/-- `Database.__init__(self, tables)`: initialise the attributes; if
`iterable_check` does not return `False`, store the raw input in
`self.schema` and run the table loop; otherwise return with the attributes
still in their initial state (no exception is raised for a non-iterable
input). -/
def buildDatabase (tables : PyInput) : Except (ErrKind × Database) Database :=
  if iterable_check tables then
    match tables with
    | .notIterable => .ok initDatabase
    | .iterable tds => processTables tds { initDatabase with schema := some tds } tds
  else
    .ok initDatabase

/-- The error kind of a construction outcome, `none` on success. -/
def buildKind : Except (ErrKind × Database) Database → Option ErrKind
  | .error (e, _) => some e
  | .ok _ => none

/-- The partially built state carried by a construction failure. -/
def buildErrState : Except (ErrKind × Database) Database → Option Database
  | .error (_, db) => some db
  | .ok _ => none

/-- The constructed handle of a successful construction. -/
def buildOk : Except (ErrKind × Database) Database → Option Database
  | .error _ => none
  | .ok db => some db

/-- Modelled from the spec: `Database.insert(table_name, values)` calls
`insert_check(table_name, values, ...)`, a row-value checker that is absent
from the given sources (the spec calls row validation "delegated,
unspecified, to an external row-value checker").  Its verdict
(`insert_check(...) != False`) is abstracted as the parameter `check_ok`.
When the check passes, `self.pk += 1`; the method then returns
`(self.pk, self.version)` and the mutated handle. -/
def Database.insert (db : Database) (check_ok : Bool) : Database × (Nat × Nat) :=
  let db1 := if check_ok then { db with pk := db.pk + 1 } else db
  (db1, (db1.pk, db1.version))

/-- The shape `__init__` gives `self.column[i]`: an empty-list placeholder
appended before each column name. -/
def colRepr : List ColDef → List PyEntry
  | [] => []
  | c :: rest => PyEntry.emptyList :: PyEntry.str c.1 :: colRepr rest

/-- A name that passes the syntactic identifier rules (non-empty, ASCII
letter first, every character in `[A-Za-z0-9_]`) — the invariant satisfied
by every name the builder has accepted. -/
def acceptedIdent (s : String) : Bool :=
  match s.data[0]? with
  | none => false
  | some c => py_isalpha c && s.data.all ident_char

/-- A one-table, one-column definition list used to instantiate the
invariant theorems on a concrete input. -/
def exTables : List TableDef := [("t", [("c", PyVal.tyInt)])]

/-- The handle `Database.__init__` builds from `exTables`. -/
def exDb : Database :=
  { schema := some exTables, table_names := ["t"], table_count := 1,
    table_col_count := [1], column := [[PyEntry.emptyList, PyEntry.str "c"]],
    col_type := [[PyVal.tyInt]], pk := 1, version := 0 }

/-! ### List helpers -/

theorem getD_append_last {α : Type} (A : List α) (u d : α) :
    (A ++ [u]).getD A.length d = u := by
  induction A with
  | nil => rfl
  | cons a A ih => simpa using ih

theorem set_append_last {α : Type} (A : List α) (u y : α) :
    (A ++ [u]).set A.length y = A ++ [y] := by
  induction A with
  | nil => rfl
  | cons a A ih => simpa using ih

theorem getElem?_append_last {α : Type} (A : List α) (u : α) :
    (A ++ [u])[A.length]? = some u := by
  induction A with
  | nil => rfl
  | cons a A ih => simpa using ih

theorem getElem?_of_drop_cons {α : Type} :
    ∀ (k : Nat) (l : List α) (t : α) (rest : List α),
      l.drop k = t :: rest → l[k]? = some t := by
  intro k
  induction k with
  | zero => intro l t rest h; simp at h; simp [h]
  | succ k ih =>
    intro l t rest h
    cases l with
    | nil => simp at h
    | cons a l => simpa using ih l t rest (by simpa using h)

theorem drop_succ_of_drop_cons {α : Type} :
    ∀ (k : Nat) (l : List α) (t : α) (rest : List α),
      l.drop k = t :: rest → l.drop (k + 1) = rest := by
  intro k
  induction k with
  | zero => intro l t rest h; simp at h; simp [h]
  | succ k ih =>
    intro l t rest h
    cases l with
    | nil => simp at h
    | cons a l => simpa using ih l t rest (by simpa using h)

/-! ### Characterisation of a successful construction -/

theorem processColumn_ok (c : ColDef) (A : List (List PyEntry)) (u : List PyEntry)
    (B : List (List PyVal)) (v : List PyVal) (C : List Nat) (n : Nat)
    (db db1 : Database)
    (hc : db.column = A ++ [u]) (hcl : A.length = db.table_count)
    (ht : db.col_type = B ++ [v]) (htl : B.length = db.table_count)
    (hn : db.table_col_count = C ++ [n]) (hnl : C.length = db.table_count)
    (h : processColumn db c = .ok db1) :
    db1.column = A ++ [u ++ [PyEntry.emptyList, PyEntry.str c.1]] ∧
    db1.col_type = B ++ [v ++ [c.2]] ∧
    db1.table_col_count = C ++ [n + 1] ∧
    db1.table_count = db.table_count ∧
    db1.table_names = db.table_names ∧
    db1.schema = db.schema ∧ db1.pk = db.pk ∧ db1.version = db.version := by
  simp only [processColumn, hc, ht, hn, ← hcl, getD_append_last, set_append_last] at h
  split at h
  · exact absurd h (by simp)
  · split at h
    · exact absurd h (by simp)
    · rw [Except.ok.injEq] at h
      subst h
      refine ⟨?_, ?_, ?_, hcl, rfl, rfl, rfl, rfl⟩
      · simp [set_append_last, getElem?_append_last, List.append_assoc]
      · rw [hcl.trans htl.symm]
        simp [getElem?_append_last, set_append_last]
      · rw [hcl.trans hnl.symm]
        simp [getElem?_append_last, set_append_last]

theorem processColumns_ok :
    ∀ (cols : List ColDef) (A : List (List PyEntry)) (u : List PyEntry)
      (B : List (List PyVal)) (v : List PyVal) (C : List Nat) (n : Nat)
      (db db1 : Database),
      db.column = A ++ [u] → A.length = db.table_count →
      db.col_type = B ++ [v] → B.length = db.table_count →
      db.table_col_count = C ++ [n] → C.length = db.table_count →
      processColumns db cols = .ok db1 →
      db1.column = A ++ [u ++ colRepr cols] ∧
      db1.col_type = B ++ [v ++ cols.map Prod.snd] ∧
      db1.table_col_count = C ++ [n + cols.length] ∧
      db1.table_count = db.table_count ∧
      db1.table_names = db.table_names ∧
      db1.schema = db.schema ∧ db1.pk = db.pk ∧ db1.version = db.version := by
  intro cols
  induction cols with
  | nil =>
    intro A u B v C n db db1 hc hcl ht htl hn hnl h
    simp only [processColumns] at h
    rw [Except.ok.injEq] at h
    subst h
    simp [colRepr, hc, ht, hn]
  | cons c rest ih =>
    intro A u B v C n db db1 hc hcl ht htl hn hnl h
    simp only [processColumns] at h
    split at h
    · exact absurd h (by simp)
    case h_2 dbm hm =>
      obtain ⟨m1, m2, m3, m4, m5, m6, m7, m8⟩ :=
        processColumn_ok c A u B v C n db dbm hc hcl ht htl hn hnl hm
      obtain ⟨r1, r2, r3, r4, r5, r6, r7, r8⟩ :=
        ih A (u ++ [PyEntry.emptyList, PyEntry.str c.1]) B (v ++ [c.2]) C (n + 1)
          dbm db1 m1 (hcl.trans m4.symm) m2 (htl.trans m4.symm) m3 (hnl.trans m4.symm) h
      refine ⟨?_, ?_, ?_, ?_, ?_, ?_, ?_, ?_⟩
      · rw [r1, List.append_assoc]; simp [colRepr]
      · rw [r2, List.append_assoc]; simp
      · rw [r3]; simp [Nat.add_assoc, Nat.add_comm 1 rest.length]
      · rw [r4, m4]
      · rw [r5, m5]
      · rw [r6, m6]
      · rw [r7, m7]
      · rw [r8, m8]

theorem processTable_ok (tables : List TableDef) (t : TableDef) (rest : List TableDef)
    (db db1 : Database)
    (hdrop : tables.drop db.table_count = t :: rest)
    (h2 : db.column.length = db.table_count)
    (h3 : db.col_type.length = db.table_count)
    (h4 : db.table_col_count.length = db.table_count)
    (h : processTable tables db t = .ok db1) :
    db1.table_names = db.table_names ++ [t.1] ∧
    db1.column = db.column ++ [colRepr t.2] ∧
    db1.col_type = db.col_type ++ [t.2.map Prod.snd] ∧
    db1.table_col_count = db.table_col_count ++ [t.2.length] ∧
    db1.table_count = db.table_count + 1 ∧
    db1.schema = db.schema ∧ db1.pk = db.pk ∧ db1.version = db.version := by
  simp only [processTable] at h
  split at h
  · exact absurd h (by simp)
  · rw [getElem?_of_drop_cons db.table_count tables t rest hdrop] at h
    simp only [] at h
    split at h
    · exact absurd h (by simp)
    case h_2 dbm hm =>
      obtain ⟨r1, r2, r3, r4, r5, r6, r7, r8⟩ :=
        processColumns_ok t.2 db.column [] db.col_type [] db.table_col_count 0
          { db with table_names := db.table_names ++ [t.1],
                    column := db.column ++ [[]],
                    col_type := db.col_type ++ [[]],
                    table_col_count := db.table_col_count ++ [0] }
          dbm rfl h2 rfl h3 rfl h4 hm
      rw [Except.ok.injEq] at h
      subst h
      refine ⟨?_, ?_, ?_, ?_, ?_, ?_, ?_, ?_⟩
      · simpa using r5
      · simpa using r1
      · simpa using r2
      · simpa using r3
      · simpa using r4
      · simpa using r6
      · simpa using r7
      · simpa using r8

theorem processTables_ok :
    ∀ (remaining : List TableDef) (tables : List TableDef) (db db1 : Database),
      tables.drop db.table_count = remaining →
      db.column.length = db.table_count →
      db.col_type.length = db.table_count →
      db.table_col_count.length = db.table_count →
      processTables tables db remaining = .ok db1 →
      db1.table_names = db.table_names ++ remaining.map Prod.fst ∧
      db1.column = db.column ++ remaining.map (fun t => colRepr t.2) ∧
      db1.col_type = db.col_type ++ remaining.map (fun t => t.2.map Prod.snd) ∧
      db1.table_col_count = db.table_col_count ++ remaining.map (fun t => t.2.length) ∧
      db1.table_count = db.table_count + remaining.length ∧
      db1.schema = db.schema ∧ db1.pk = db.pk ∧ db1.version = db.version := by
  intro remaining
  induction remaining with
  | nil =>
    intro tables db db1 hdrop h2 h3 h4 h
    simp only [processTables] at h
    rw [Except.ok.injEq] at h
    subst h
    simp
  | cons t rest ih =>
    intro tables db db1 hdrop h2 h3 h4 h
    simp only [processTables] at h
    split at h
    · exact absurd h (by simp)
    case h_2 dbm hm =>
      obtain ⟨r1, r2, r3, r4, r5, r6, r7, r8⟩ :=
        processTable_ok tables t rest db dbm hdrop h2 h3 h4 hm
      obtain ⟨s1, s2, s3, s4, s5, s6, s7, s8⟩ :=
        ih tables dbm db1
          (by rw [r5]; exact drop_succ_of_drop_cons db.table_count tables t rest hdrop)
          (by rw [r2, r5]; simp [h2])
          (by rw [r3, r5]; simp [h3])
          (by rw [r4, r5]; simp [h4]) h
      refine ⟨?_, ?_, ?_, ?_, ?_, ?_, ?_, ?_⟩
      · rw [s1, r1]; simp
      · rw [s2, r2]; simp
      · rw [s3, r3]; simp
      · rw [s4, r4]; simp
      · rw [s5, r5]; simp [Nat.add_assoc, Nat.add_comm 1 rest.length]
      · rw [s6, r6]
      · rw [s7, r7]
      · rw [s8, r8]

theorem buildDatabase_ok (tds : List TableDef) (db : Database)
    (h : buildDatabase (.iterable tds) = .ok db) :
    db.schema = some tds ∧
    db.table_names = tds.map Prod.fst ∧
    db.column = tds.map (fun t => colRepr t.2) ∧
    db.col_type = tds.map (fun t => t.2.map Prod.snd) ∧
    db.table_col_count = tds.map (fun t => t.2.length) ∧
    db.table_count = tds.length ∧ db.pk = 1 ∧ db.version = 0 := by
  simp only [buildDatabase, iterable_check, if_pos] at h
  obtain ⟨s1, s2, s3, s4, s5, s6, s7, s8⟩ :=
    processTables_ok tds tds { initDatabase with schema := some tds } db rfl rfl rfl rfl h
  simp only [initDatabase] at s1 s2 s3 s4 s5 s6 s7 s8
  exact ⟨by simpa using s6, by simpa using s1, by simpa using s2, by simpa using s3,
    by simpa using s4, by simpa using s5, by simpa using s7, by simpa using s8⟩

theorem buildOk_eq_some (x : Except (ErrKind × Database) Database) (db : Database) :
    buildOk x = some db ↔ x = .ok db := by
  cases x with
  | error e => simp [buildOk]
  | ok d => simp [buildOk]

theorem colRepr_length (cols : List ColDef) : (colRepr cols).length = 2 * cols.length := by
  induction cols with
  | nil => rfl
  | cons c rest ih => simp [colRepr, ih, Nat.mul_add]

theorem colRepr_ne_names (cols : List ColDef) (h : cols ≠ []) :
    colRepr cols ≠ cols.map (fun c => PyEntry.str c.1) := by
  cases cols with
  | nil => exact absurd rfl h
  | cons c rest => intro he; simp [colRepr] at he

/-! ### The claims -/

/-- C2 counterexample: on a non-iterable input the constructor does not
fail at all — `buildKind` reports no error kind and the handle comes back
in its initial (empty-schema) state — so in particular it does not fail
with kind `NotIterable`. -/
theorem c2_counterexample :
    buildKind (buildDatabase PyInput.notIterable) = none ∧
    buildOk (buildDatabase PyInput.notIterable) = some initDatabase := by
  exact ⟨rfl, rfl⟩

/-- C2 (amended): if the table-definition input is not iterable,
`iterable_check` diagnoses it (returning `False` after printing) and no
table definition is processed, but construction itself does not fail: the
constructor returns normally with every schema attribute still in its
empty initial state. -/
theorem c2_not_iterable :
    iterable_check PyInput.notIterable = false ∧
    buildDatabase PyInput.notIterable = Except.ok initDatabase ∧
    initDatabase.table_count = 0 ∧ initDatabase.table_names = [] ∧
    initDatabase.schema = none := by
  exact ⟨rfl, rfl, rfl, rfl, rfl⟩

/-- C5 counterexample: `"!a"` contains a character outside `[A-Za-z0-9_]`
(witnessed by `ident_char` being false on its first character), yet both
name checks fail with `MustStartWithLetter`, not `InvalidCharacters`,
because the first-character test runs before the character-class test; and
`"a\n"` also contains a character outside the class yet passes validation
entirely, because the `$` of `re.match` accepts a single trailing
newline. -/
theorem c5_counterexample :
    ident_char '!' = false ∧
    checkKind (table_name_check "!a" []) = some ErrKind.MustStartWithLetter ∧
    checkKind (column_name_check "!a" []) = some ErrKind.MustStartWithLetter ∧
    checkKind (table_name_check "!a" []) ≠ some ErrKind.InvalidCharacters ∧
    checkKind (column_name_check "!a" []) ≠ some ErrKind.InvalidCharacters ∧
    ident_char '\n' = false ∧
    checkKind (table_name_check "a\n" []) = none ∧
    checkKind (column_name_check "a\n" []) = none := by
  refine ⟨rfl, rfl, rfl, by decide, by decide, rfl, rfl, rfl⟩

/-- C5 (amended): for every string candidate whose first character is an
(ASCII) alphabetic letter and which contains at least one character outside
`[A-Za-z0-9_]` that is not merely a single trailing newline (if the string
ends in a newline, the part before it must still contain a character
outside the class — otherwise `re.match`'s `$` accepts the name), identifier
validation as a table or column name fails with kind `InvalidCharacters`,
whatever the existing names. -/
theorem c5_invalid_characters (s : String) (c : Char)
    (existing : List String) (existingC : List PyEntry)
    (h0 : s.data[0]? = some c) (h1 : py_isalpha c = true)
    (h2 : s.data.all ident_char = false)
    (h3 : s.data.getLast? = some '\n' → s.data.dropLast.all ident_char = false) :
    checkKind (table_name_check s existing) = some ErrKind.InvalidCharacters ∧
    checkKind (column_name_check s existingC) = some ErrKind.InvalidCharacters := by
  have hre : py_regex_match s.data = false := by
    by_cases hl : s.data.getLast? = some '\n'
    · simp [py_regex_match, h2, hl, h3 hl]
    · simp [py_regex_match, h2, hl]
  constructor
  · unfold table_name_check
    rw [h0]
    simp [h1, hre, checkKind]
  · unfold column_name_check
    rw [h0]
    simp [h1, hre, checkKind]

/-- C6 counterexample: validating the empty string as a table or column
name does not fail with `MustStartWithLetter`. -/
theorem c6_counterexample :
    checkKind (table_name_check "" []) ≠ some ErrKind.MustStartWithLetter ∧
    checkKind (column_name_check "" []) ≠ some ErrKind.MustStartWithLetter := by
  refine ⟨by decide, by decide⟩

/-- C6 (amended): identifier validation of the empty string as a table or
column name fails, but with an uncaught IndexError raised by subscripting
the first character (`name[0]`), not with kind `MustStartWithLetter`. -/
theorem c6_empty_string :
    checkKind (table_name_check "" []) = some ErrKind.IndexError ∧
    checkKind (column_name_check "" []) = some ErrKind.IndexError := by
  exact ⟨rfl, rfl⟩

/-- C3: the definition list `[("users", [("name", str), ("age", int)]),
("posts", [("author", "users")])]` builds successfully; the schema has 2
tables named `["users", "posts"]` in declaration order, and the type of
column `"author"` of table `"posts"` is stored as the string reference
`"users"`, which names a table present in the schema (a validated
foreign-key reference). -/
theorem c3_end_to_end :
    (buildOk (buildDatabase (.iterable [("users", [("name", .tyStr), ("age", .tyInt)]),
        ("posts", [("author", .strV "users")])]))).map Database.table_count = some 2 ∧
    (buildOk (buildDatabase (.iterable [("users", [("name", .tyStr), ("age", .tyInt)]),
        ("posts", [("author", .strV "users")])]))).map Database.table_names
      = some ["users", "posts"] ∧
    (buildOk (buildDatabase (.iterable [("users", [("name", .tyStr), ("age", .tyInt)]),
        ("posts", [("author", .strV "users")])]))).map
      (fun db => db.column.getD 1 []) = some [PyEntry.emptyList, PyEntry.str "author"] ∧
    (buildOk (buildDatabase (.iterable [("users", [("name", .tyStr), ("age", .tyInt)]),
        ("posts", [("author", .strV "users")])]))).map
      (fun db => db.col_type.getD 1 []) = some [PyVal.strV "users"] ∧
    (buildOk (buildDatabase (.iterable [("users", [("name", .tyStr), ("age", .tyInt)]),
        ("posts", [("author", .strV "users")])]))).map
      (fun db => decide ("users" ∈ db.table_names)) = some true := by
  refine ⟨rfl, rfl, rfl, rfl, rfl⟩

/-- C4: a string column type equal to the owning table's name (the entry of
the accumulated name list at the owning table's index) makes the type check
fail with `SelfReferencingForeignKey`; end to end, `[("a", [("self_ref",
"a")])]` aborts construction with that kind while `table_count` in the
partially built state is still 0 — the table was never marked fully
built. -/
theorem c4_self_referencing (s : String) (idx : Nat) (names : List String)
    (h : names[idx]? = some s) :
    checkKind (column_type_check (.strV s) idx names)
      = some ErrKind.SelfReferencingForeignKey ∧
    buildKind (buildDatabase (.iterable [("a", [("self_ref", .strV "a")])]))
      = some ErrKind.SelfReferencingForeignKey ∧
    (buildErrState (buildDatabase (.iterable [("a", [("self_ref", .strV "a")])]))).map
      Database.table_count = some 0 := by
  refine ⟨?_, rfl, rfl⟩
  unfold column_type_check
  rw [h]
  simp [checkKind]

/-- C4 witness: the self-reference rule instantiated at table `"a"`. -/
theorem c4_witness :
    checkKind (column_type_check (.strV "a") 0 ["a"])
      = some ErrKind.SelfReferencingForeignKey ∧
    buildKind (buildDatabase (.iterable [("a", [("self_ref", .strV "a")])]))
      = some ErrKind.SelfReferencingForeignKey ∧
    (buildErrState (buildDatabase (.iterable [("a", [("self_ref", .strV "a")])]))).map
      Database.table_count = some 0 :=
  c4_self_referencing "a" 0 ["a"] rfl

/-- C7: a string column type that differs from the owning table's name and
is absent from the accumulated table names fails with
`UnknownForeignKeyTarget`; in particular a forward reference — table `"a"`
declaring a column typed `"b"` with table `"b"` only declared later — aborts
construction with that kind. -/
theorem c7_unknown_target (s own : String) (idx : Nat) (names : List String)
    (hown : names[idx]? = some own) (hne : s ≠ own) (hmem : s ∉ names) :
    checkKind (column_type_check (.strV s) idx names)
      = some ErrKind.UnknownForeignKeyTarget ∧
    buildKind (buildDatabase (.iterable [("a", [("fk", .strV "b")]), ("b", [("x", .tyInt)])]))
      = some ErrKind.UnknownForeignKeyTarget := by
  refine ⟨?_, rfl⟩
  unfold column_type_check
  rw [hown]
  simp [checkKind, hne, hmem]

/-- C7 witness: the unknown-target rule instantiated at candidate `"b"`
against the accumulated names `["a"]`. -/
theorem c7_witness :
    checkKind (column_type_check (.strV "b") 0 ["a"])
      = some ErrKind.UnknownForeignKeyTarget ∧
    buildKind (buildDatabase (.iterable [("a", [("fk", .strV "b")]), ("b", [("x", .tyInt)])]))
      = some ErrKind.UnknownForeignKeyTarget :=
  c7_unknown_target "b" "a" 0 ["a"] rfl (by decide) (by decide)

/-- C8: identifier validation (for table and for column names) fails with
`DuplicateName` exactly when the candidate case-sensitively equals a name
already accepted into `existing_names` (every previously accepted name
satisfies the syntactic identifier rules, the stated hypothesis); in
particular two tables both named `"users"` fail with `DuplicateName`, while
`"users"` and `"Users"` are both accepted. -/
theorem c8_duplicate_name (cand : String) (existing : List String)
    (existingC : List PyEntry)
    (hvalid : ∀ n, n ∈ existing → acceptedIdent n = true)
    (hvalidC : ∀ s2, PyEntry.str s2 ∈ existingC → acceptedIdent s2 = true) :
    (checkKind (table_name_check cand existing) = some ErrKind.DuplicateName
      ↔ cand ∈ existing) ∧
    (checkKind (column_name_check cand existingC) = some ErrKind.DuplicateName
      ↔ PyEntry.str cand ∈ existingC) ∧
    buildKind (buildDatabase (.iterable [("users", [("id", .tyInt)]),
      ("users", [("id", .tyInt)])])) = some ErrKind.DuplicateName ∧
    (buildOk (buildDatabase (.iterable [("users", [("id", .tyInt)]),
      ("Users", [("id", .tyInt)])]))).map Database.table_names
      = some ["users", "Users"] := by
  refine ⟨⟨?_, ?_⟩, ⟨?_, ?_⟩, rfl, rfl⟩
  · intro h
    unfold table_name_check at h
    split at h
    · simp [checkKind] at h
    · split at h
      · simp [checkKind] at h
      · split at h
        · simp [checkKind] at h
        · split at h
          · rename_i hmem
            exact hmem
          · simp [checkKind] at h
  · intro hmem
    have hval := hvalid cand hmem
    unfold acceptedIdent at hval
    unfold table_name_check
    cases h0 : cand.data[0]? with
    | none => rw [h0] at hval; simp at hval
    | some c =>
      rw [h0] at hval
      simp only [Bool.and_eq_true] at hval
      simp [py_regex_match, hval.1, hval.2, hmem, checkKind]
  · intro h
    unfold column_name_check at h
    split at h
    · simp [checkKind] at h
    · split at h
      · simp [checkKind] at h
      · split at h
        · simp [checkKind] at h
        · split at h
          · rename_i hmem
            exact hmem
          · simp [checkKind] at h
  · intro hmem
    have hval := hvalidC cand hmem
    unfold acceptedIdent at hval
    unfold column_name_check
    cases h0 : cand.data[0]? with
    | none => rw [h0] at hval; simp at hval
    | some c =>
      rw [h0] at hval
      simp only [Bool.and_eq_true] at hval
      simp [py_regex_match, hval.1, hval.2, hmem, checkKind]

/-- C8 witness: the duplicate rule instantiated at candidate `"users"`
against the accepted names `["users"]`. -/
theorem c8_witness :
    acceptedIdent "users" = true ∧
    checkKind (table_name_check "users" ["users"]) = some ErrKind.DuplicateName :=
  ⟨rfl,
    (c8_duplicate_name "users" ["users"] []
      (by intro n hn; simp only [List.mem_singleton] at hn; subst hn; rfl)
      (by intro s2 hx; exact absurd hx (List.not_mem_nil _))).1.mpr (by decide)⟩

/-- C1: on a value set that passes row validation, `insert` returns
`(pk, version)` where `pk` is the handle's global row counter after
pre-incrementing it and `version` is 0; two such calls on the same handle
return strictly increasing `pk` values and `version = 0` both times.  The
`version = 0` hypothesis holds for every constructed handle (final
conjunct) and is preserved by `insert` (third conjunct). -/
theorem c1_insert (db : Database) (h : db.version = 0) :
    (db.insert true).2 = (db.pk + 1, 0) ∧
    (db.insert true).1.pk = db.pk + 1 ∧
    (db.insert true).1.version = 0 ∧
    ((db.insert true).1.insert true).2 = (db.pk + 1 + 1, 0) ∧
    (db.insert true).2.1 < ((db.insert true).1.insert true).2.1 ∧
    (∀ input dbc, buildDatabase input = Except.ok dbc → dbc.version = 0) := by
  refine ⟨?_, ?_, ?_, ?_, ?_, ?_⟩
  · simp [Database.insert, h]
  · simp [Database.insert]
  · simp [Database.insert, h]
  · simp [Database.insert, h]
  · simp [Database.insert]
  · intro input dbc hb
    cases input with
    | notIterable =>
      have hdb : dbc = initDatabase := by
        simpa [buildDatabase, iterable_check, eq_comm] using hb
      rw [hdb]
      rfl
    | iterable tds => exact (buildDatabase_ok tds dbc hb).2.2.2.2.2.2.2

/-- C1 witness: two inserts on a freshly initialised handle return
`(2, 0)` then `(3, 0)`. -/
theorem c1_witness :
    initDatabase.version = 0 ∧
    (initDatabase.insert true).2 = (initDatabase.pk + 1, 0) ∧
    (initDatabase.insert true).2.1 < ((initDatabase.insert true).1.insert true).2.1 :=
  ⟨rfl, (c1_insert initDatabase rfl).1, (c1_insert initDatabase rfl).2.2.2.2.1⟩

/-- C9: on every successfully constructed handle, `self.column[i]` is not
the plain list of accepted column names: it is the alternating
placeholder/name list `colRepr` (an empty-list placeholder appended before
each name), whose length is twice the declared column count. -/
theorem c9_column_shape (tds : List TableDef) (db : Database) (i : Nat)
    (h : buildOk (buildDatabase (.iterable tds)) = some db)
    (hi : i < db.table_count) :
    db.column[i]? = some (colRepr (tds.getD i ("", [])).2) ∧
    (db.column.getD i []).length = 2 * (tds.getD i ("", [])).2.length ∧
    ((tds.getD i ("", [])).2 ≠ [] →
      db.column[i]? ≠ some ((tds.getD i ("", [])).2.map (fun c => PyEntry.str c.1))) := by
  rw [buildOk_eq_some] at h
  obtain ⟨s1, s2, s3, s4, s5, s6, s7, s8⟩ := buildDatabase_ok tds db h
  rw [s6] at hi
  have htds : tds[i]? = some (tds.getD i ("", [])) := by
    rw [List.getElem?_eq_getElem hi, List.getD_eq_getElem?_getD,
      List.getElem?_eq_getElem hi]
    rfl
  have hcol : db.column[i]? = some (colRepr (tds.getD i ("", [])).2) := by
    rw [s3, List.getElem?_map, htds]
    rfl
  refine ⟨hcol, ?_, ?_⟩
  · rw [List.getD_eq_getElem?_getD, hcol]
    exact colRepr_length (tds.getD i ("", [])).2
  · intro hne heq
    rw [hcol, Option.some.injEq] at heq
    exact colRepr_ne_names (tds.getD i ("", [])).2 hne heq

/-- C9 witness: the one-table input `exTables` yields `exDb`, whose
`column[0]` is `[[], "c"]` — placeholder then name, length 2·1. -/
theorem c9_witness :
    buildOk (buildDatabase (.iterable exTables)) = some exDb ∧
    0 < exDb.table_count ∧
    (exDb.column[0]? = some (colRepr (exTables.getD 0 ("", [])).2) ∧
     (exDb.column.getD 0 []).length = 2 * (exTables.getD 0 ("", [])).2.length ∧
     ((exTables.getD 0 ("", [])).2 ≠ [] →
       exDb.column[0]? ≠ some ((exTables.getD 0 ("", [])).2.map (fun c => PyEntry.str c.1)))) :=
  ⟨by decide, by decide, c9_column_shape exTables exDb 0 (by decide) (by decide)⟩

/-- C10: after a successful construction the parallel schema arrays agree
in length with `table_count`, and per table index the stored column count
and column-type list match the declared column definitions in order. -/
theorem c10_parallel_arrays (tds : List TableDef) (db : Database)
    (h : buildOk (buildDatabase (.iterable tds)) = some db) :
    db.table_names.length = db.table_count ∧
    db.table_col_count.length = db.table_count ∧
    db.column.length = db.table_count ∧
    db.col_type.length = db.table_count ∧
    ∀ i, i < db.table_count →
      db.table_col_count[i]? = some (tds.getD i ("", [])).2.length ∧
      db.col_type[i]? = some ((tds.getD i ("", [])).2.map Prod.snd) := by
  rw [buildOk_eq_some] at h
  obtain ⟨s1, s2, s3, s4, s5, s6, s7, s8⟩ := buildDatabase_ok tds db h
  refine ⟨by rw [s2, s6]; simp, by rw [s5, s6]; simp, by rw [s3, s6]; simp,
    by rw [s4, s6]; simp, ?_⟩
  intro i hi
  rw [s6] at hi
  have htds : tds[i]? = some (tds.getD i ("", [])) := by
    rw [List.getElem?_eq_getElem hi, List.getD_eq_getElem?_getD,
      List.getElem?_eq_getElem hi]
    rfl
  constructor
  · rw [s5, List.getElem?_map, htds]
    rfl
  · rw [s4, List.getElem?_map, htds]
    rfl

/-- C10 witness: the parallel-array agreement instantiated on `exTables`
and its handle `exDb`. -/
theorem c10_witness :
    buildOk (buildDatabase (.iterable exTables)) = some exDb ∧
    (exDb.table_names.length = exDb.table_count ∧
     exDb.table_col_count.length = exDb.table_count ∧
     exDb.column.length = exDb.table_count ∧
     exDb.col_type.length = exDb.table_count ∧
     ∀ i, i < exDb.table_count →
       exDb.table_col_count[i]? = some (exTables.getD i ("", [])).2.length ∧
       exDb.col_type[i]? = some ((exTables.getD i ("", [])).2.map Prod.snd)) :=
  ⟨by decide, c10_parallel_arrays exTables exDb (by decide)⟩

/-- C5 witness: the character-class rule instantiated at `"a!"`, whose
first character is a letter and whose second falls outside the class. -/
theorem c5_witness :
    checkKind (table_name_check "a!" []) = some ErrKind.InvalidCharacters ∧
    checkKind (column_name_check "a!" []) = some ErrKind.InvalidCharacters :=
  c5_invalid_characters "a!" 'a' [] [] rfl rfl rfl (by decide)
